import Mathlib

/-!
Verification of the url-shortener service layer against its specification.

The development shallowly embeds the Python source:

* `UrlService` embeds src/app/url_service.py (the service wired into the
  HTTP routes),
* `AppService` embeds src/app/service.py (the older, function-based edge
  service that is kept in the tree),
* `IdAllocator` embeds src/services/id_allocator/id_allocator_service.py,
* `Schemas` embeds src/app/schemas.py,
* `IngestionWorker` embeds src/services/ingestion/worker.py,
* `IngestionSvc` embeds src/services/ingestion/ingestion_service.py.

Conventions: Python ints become `Int` (or `Nat` where the source value is
provably non-negative), fallible code returns `Except`/`Option`, Redis
state is passed explicitly, and time delays are recorded in milliseconds
as naturals (the source constant 0.05 s is recorded as 50 ms).
-/

/-- Python str.rjust: left-pad with the fill character up to the width. -/
def pyRjust (s : String) (width : Nat) (fill : Char) : String :=
  if width ≤ s.length then s
  else String.mk (List.replicate (width - s.length) fill ++ s.data)

/-- The while-loop shared by both _base62_encode implementations: repeated
divmod by 62, collecting remainders least-significant first. Structural on
a fuel argument so that the definition evaluates inside the kernel; fuel n
is enough because the loop variable strictly decreases. -/
def base62RemsGo : Nat → Nat → List Nat
  | 0, _ => []
  | _ + 1, 0 => []
  | f + 1, m + 1 => (m + 1) % 62 :: base62RemsGo f ((m + 1) / 62)

/-- Remainder list of n, least-significant digit first. -/
def base62Rems (n : Nat) : List Nat := base62RemsGo n n

/-- Body of the encoders for a non-negative input: alphabet head for zero,
otherwise the reversed remainder list mapped through the alphabet. -/
def base62EncodeNat (alphabet : String) (n : Nat) : String :=
  if n = 0 then String.mk [alphabet.data.getD 0 ' ']
  else String.mk (((base62Rems n).map fun r => alphabet.data.getD r ' ').reverse)

/-- Modelled from the spec words for the refinement claim on the encoder:
the most-significant-digit-first base-62 representation of n over the
given alphabet, with the alphabet head for 0. -/
def base62SpecMSD (alphabet : String) (n : Nat) : String :=
  if n = 0 then String.mk [alphabet.data.getD 0 ' ']
  else String.mk (((Nat.digits 62 n).reverse).map fun d => alphabet.data.getD d ' ')

namespace UrlService

/-- src/app/url_service.py line 209. -/
def BASE62_ALPHABET : String :=
  "0123456789abcdefghijklmnopqrstuvwxyzABCDEFGHIJKLMNOPQRSTUVWXYZ"

/-- src/app/url_service.py line 211. -/
def DEFAULT_CACHE_TTL_SECONDS : Nat := 3600

/-- src/app/url_service.py _base62_encode: ValueError on negative input,
"0" for 0, otherwise the divmod loop reversed. -/
def _base62_encode (number : Int) : Except String String :=
  if number < 0 then Except.error "Number must be non-negative"
  else Except.ok (base62EncodeNat BASE62_ALPHABET number.toNat)

/-- Default Settings.SHORT_CODE_LENGTH (src/app/config.py). -/
def SHORT_CODE_LENGTH : Nat := 8

/-- The code construction inside _allocate_short_code_with_cache for an id
drawn from the local block: encode then rjust with the alphabet head. -/
def generatedShortCode (allocatedId : Nat) : String :=
  pyRjust (base62EncodeNat BASE62_ALPHABET allocatedId) SHORT_CODE_LENGTH
    (BASE62_ALPHABET.data.getD 0 ' ')

end UrlService

namespace AppService

/-- src/app/service.py line 151: lowercase first, digits last. -/
def ALPHABET : String :=
  "abcdefghijklmnopqrstuvwxyzABCDEFGHIJKLMNOPQRSTUVWXYZ0123456789"

/-- src/app/service.py _base62_encode: assert on negative input, otherwise
the same divmod loop over this module's ALPHABET. -/
def _base62_encode (value : Int) : Except String String :=
  if value < 0 then Except.error "value must be non-negative int"
  else Except.ok (base62EncodeNat ALPHABET value.toNat)

/-- The code construction inside _generate_short_code_from_allocator:
encode then rjust with ALPHABET head (the letter a). -/
def generatedShortCode (allocatedId : Nat) : String :=
  pyRjust (base62EncodeNat ALPHABET allocatedId) UrlService.SHORT_CODE_LENGTH
    (ALPHABET.data.getD 0 ' ')

end AppService

lemma base62RemsGo_eq_digits : ∀ fuel n, n ≤ fuel → base62RemsGo fuel n = Nat.digits 62 n := by
  intro fuel
  induction fuel with
  | zero =>
    intro n h
    have : n = 0 := Nat.le_zero.mp h
    simp [this, base62RemsGo]
  | succ f ih =>
    intro n h
    cases n with
    | zero => simp [base62RemsGo]
    | succ m =>
      rw [base62RemsGo, Nat.digits_def' (by norm_num : 1 < 62) (Nat.succ_pos m),
        ih ((m + 1) / 62)
          (Nat.le_of_lt_succ (Nat.lt_of_lt_of_le
            (Nat.div_lt_self (Nat.succ_pos m) (by decide)) h))]

lemma base62Rems_eq_digits (n : Nat) : base62Rems n = Nat.digits 62 n :=
  base62RemsGo_eq_digits n n (Nat.le_refl n)

lemma base62EncodeNat_eq_spec (alphabet : String) (n : Nat) :
    base62EncodeNat alphabet n = base62SpecMSD alphabet n := by
  unfold base62EncodeNat base62SpecMSD
  by_cases h : n = 0
  · simp [h]
  · simp [h, base62Rems_eq_digits, List.map_reverse]

lemma base62Rems_lt (n : Nat) : ∀ r ∈ base62Rems n, r < 62 := by
  intro r hr
  rw [base62Rems_eq_digits] at hr
  exact Nat.digits_lt_base (by norm_num) hr

lemma mem_of_getD_base62 (alphabet : String) (h62 : alphabet.data.length = 62)
    (r : Nat) (hr : r < 62) : alphabet.data.getD r ' ' ∈ alphabet.data := by
  have hlt : r < alphabet.data.length := by omega
  rw [List.getD_eq_getElem alphabet.data ' ' hlt]
  exact List.getElem_mem hlt

lemma base62EncodeNat_chars (alphabet : String) (h62 : alphabet.data.length = 62)
    (n : Nat) : ∀ c ∈ (base62EncodeNat alphabet n).data, c ∈ alphabet.data := by
  intro c hc
  unfold base62EncodeNat at hc
  by_cases h : n = 0
  · simp only [h, if_pos rfl] at hc
    have hc2 : c ∈ [alphabet.data.getD 0 ' '] := hc
    rcases List.mem_singleton.mp hc2 with rfl
    exact mem_of_getD_base62 alphabet h62 0 (by omega)
  · simp only [if_neg h, String.mk] at hc
    rw [List.mem_reverse] at hc
    rcases List.mem_map.mp hc with ⟨r, hrmem, rfl⟩
    exact mem_of_getD_base62 alphabet h62 r (base62Rems_lt n r hrmem)

lemma pyRjust_chars (s : String) (w : Nat) (fill : Char) :
    ∀ c ∈ (pyRjust s w fill).data, c = fill ∨ c ∈ s.data := by
  intro c hc
  unfold pyRjust at hc
  by_cases h : w ≤ s.length
  · exact Or.inr (by simpa [h] using hc)
  · simp only [if_neg h, String.mk, List.mem_append] at hc
    rcases hc with hc | hc
    · exact Or.inl (List.eq_of_mem_replicate hc)
    · exact Or.inr hc

/-- C3, as claimed, fails on the encoder of src/app/service.py: its
alphabet puts lowercase letters first and digits last, so encode(0) is
the string a, not the string 0 demanded by the claim. -/
theorem C3_counterexample :
    AppService._base62_encode 0 = Except.ok "a" ∧ ("a" : String) ≠ "0" := by
  exact ⟨rfl, by decide⟩

/-- C3 (amended): the encoder of src/app/url_service.py is exactly the
most-significant-digit-first base-62 representation over the digits-first
alphabet with encode(0) = "0", and every character of every generated
(left-padded) short code lies in that alphabet; the encoder of
src/app/service.py is the same representation over a lowercase-first
alphabet with encode(0) = "a" and padding character a, its generated code
characters lying in that alphabet; the two alphabets contain the same 62
symbols. -/
theorem C3_base62_encoders :
    (∀ n : Nat, UrlService._base62_encode (n : Int) =
        Except.ok (base62SpecMSD UrlService.BASE62_ALPHABET n)) ∧
    UrlService._base62_encode 0 = Except.ok "0" ∧
    (∀ n : Nat, ∀ c ∈ (UrlService.generatedShortCode n).data,
        c ∈ UrlService.BASE62_ALPHABET.data) ∧
    (∀ n : Nat, AppService._base62_encode (n : Int) =
        Except.ok (base62SpecMSD AppService.ALPHABET n)) ∧
    AppService._base62_encode 0 = Except.ok "a" ∧
    (∀ n : Nat, ∀ c ∈ (AppService.generatedShortCode n).data,
        c ∈ AppService.ALPHABET.data) ∧
    AppService.ALPHABET.data ⊆ UrlService.BASE62_ALPHABET.data ∧
    UrlService.BASE62_ALPHABET.data ⊆ AppService.ALPHABET.data := by
  refine ⟨?_, rfl, ?_, ?_, rfl, ?_, by decide, by decide⟩
  · intro n
    unfold UrlService._base62_encode
    rw [if_neg (by omega), Int.toNat_natCast, base62EncodeNat_eq_spec]
  · intro n c hc
    rcases pyRjust_chars _ _ _ c hc with h | h
    · rw [h]; exact mem_of_getD_base62 _ (by decide) 0 (by omega)
    · exact base62EncodeNat_chars _ (by decide) n c h
  · intro n
    unfold AppService._base62_encode
    rw [if_neg (by omega), Int.toNat_natCast, base62EncodeNat_eq_spec]
  · intro n c hc
    rcases pyRjust_chars _ _ _ c hc with h | h
    · rw [h]; exact mem_of_getD_base62 _ (by decide) 0 (by omega)
    · exact base62EncodeNat_chars _ (by decide) n c h

/-- Witness instantiating C3_base62_encoders at a concrete generated code. -/
theorem C3_base62_encoders_witness :
    ('5' : Char) ∈ UrlService.BASE62_ALPHABET.data :=
  C3_base62_encoders.2.2.1 5 '5' (by decide)

namespace IdAllocator

/-- Core of IDAllocationService._allocate_from_redis, run under the
id_allocation_lock: read the counter (seeding 1000000 when unset), return
the range (current + 1, current + range_size) and write back the end as
the new counter. Result: (allocated range, counter value written back). -/
def allocate_from_redis (counter : Option Int) (range_size : Int) :
    (Int × Int) × Int :=
  let current : Int :=
    match counter with
    | none => 1000000
    | some v => v
  let start_id := current + 1
  let end_id := current + range_size
  ((start_id, end_id), end_id)

/-- The PostgreSQL sequence url_id_sequence created by the service:
START 1000000 INCREMENT 1000; value of the n-th nextval call (0-based). -/
def url_id_sequence_nextval (n : Nat) : Int := 1000000 + 1000 * (n : Int)

/-- IDAllocationService._allocate_from_postgresql: the SQL text already
computes nextval times range_size as batch_start, and the Python caller
multiplies the scalar by range_size once more. -/
def allocate_from_postgresql (nextval_value : Int) (range_size : Int) :
    Int × Int :=
  let sql_batch_start := nextval_value * range_size
  let batch_start := sql_batch_start * range_size
  let start_id := batch_start - range_size + 1
  let end_id := batch_start
  (start_id, end_id)

/-- Two inclusive integer ranges are disjoint when one ends before the
other starts (the relation used by the disjointness claim). -/
def rangesDisjoint (r1 r2 : Int × Int) : Prop := r1.2 < r2.1 ∨ r2.2 < r1.1

instance (r1 r2 : Int × Int) : Decidable (rangesDisjoint r1 r2) := by
  unfold rangesDisjoint; infer_instance

/-- A serialized trace of Redis-path allocations: each call runs under the
lock with the counter state the previous call wrote back. -/
def allocateRedisSeq (counter : Option Int) : List Int → List (Int × Int)
  | [] => []
  | s :: rest =>
    let r := allocate_from_redis counter s
    r.1 :: allocateRedisSeq (some r.2) rest

lemma allocateRedisSeq_lb (sizes : List Int) :
    ∀ c : Int, (∀ s ∈ sizes, 1 ≤ s) →
      ∀ r ∈ allocateRedisSeq (some c) sizes, c < r.1 ∧ r.1 ≤ r.2 := by
  induction sizes with
  | nil => intro c _ r hr; simp [allocateRedisSeq] at hr
  | cons s rest ih =>
    intro c hs r hr
    have hs1 : 1 ≤ s := hs s (List.mem_cons_self s rest)
    rcases List.mem_cons.mp hr with rfl | hr
    · exact ⟨by simp [allocate_from_redis], by simp [allocate_from_redis]; omega⟩
    · have := ih (c + s) (fun x hx => hs x (List.mem_cons_of_mem s hx)) r hr
      exact ⟨by omega, this.2⟩

lemma allocateRedisSeq_pairwise (counter : Option Int) (sizes : List Int)
    (h : ∀ s ∈ sizes, 1 ≤ s) :
    List.Pairwise rangesDisjoint (allocateRedisSeq counter sizes) := by
  cases sizes with
  | nil => simp [allocateRedisSeq]
  | cons s rest =>
    rw [allocateRedisSeq]
    refine List.Pairwise.cons ?_ ?_
    · intro r hr
      have hlb := allocateRedisSeq_lb rest ((allocate_from_redis counter s).2)
        (fun x hx => h x (List.mem_cons_of_mem s hx)) r hr
      left
      have : (allocate_from_redis counter s).1.2 = (allocate_from_redis counter s).2 := rfl
      omega
    · -- the tail is itself a serialized trace starting from the written-back counter
      have := allocateRedisSeq_pairwise (some (allocate_from_redis counter s).2) rest
        (fun x hx => h x (List.mem_cons_of_mem s hx))
      exact this

end IdAllocator

/-- C1, as claimed, fails on the PostgreSQL fallback path: with the
sequence as created (START 1000000 INCREMENT 1000), the first nextval with
size 6 and the 441st nextval with size 5 both end at 36000000, so the two
fallback ranges overlap. -/
theorem C1_counterexample :
    ¬ IdAllocator.rangesDisjoint
      (IdAllocator.allocate_from_postgresql (IdAllocator.url_id_sequence_nextval 0) 6)
      (IdAllocator.allocate_from_postgresql (IdAllocator.url_id_sequence_nextval 440) 5) := by
  decide

/-- C1 (amended): on the primary (Redis) path each call returns
(current + 1, current + size) and writes back the end as the new counter,
so any serialized trace of successful Redis-path allocations with positive
sizes returns pairwise disjoint ranges; ranges returned by the PostgreSQL
fallback path carry no such guarantee and can overlap each other (see the
counterexample). -/
theorem C1_redis_ranges_disjoint (counter : Option Int) (sizes : List Int)
    (h : ∀ s ∈ sizes, 1 ≤ s) :
    List.Pairwise IdAllocator.rangesDisjoint
      (IdAllocator.allocateRedisSeq counter sizes) :=
  IdAllocator.allocateRedisSeq_pairwise counter sizes h

/-- Witness instantiating C1_redis_ranges_disjoint on a concrete trace. -/
theorem C1_redis_ranges_disjoint_witness :
    List.Pairwise IdAllocator.rangesDisjoint
      (IdAllocator.allocateRedisSeq none [1000, 1000, 5]) :=
  C1_redis_ranges_disjoint none [1000, 1000, 5] (by decide)

/-- C2, as claimed, fails on the code: the sequence value is multiplied by
the range size twice (once in the SQL text, once in the Python caller), so
for the first nextval (1000000) and size 1000 the returned end is
10^12, not the 10^9 the claim requires. -/
theorem C2_counterexample :
    (IdAllocator.allocate_from_postgresql 1000000 1000).2 ≠ 1000000 * 1000 ∧
    (IdAllocator.allocate_from_postgresql 1000000 1000).2 = 1000000 * 1000 * 1000 := by
  constructor
  · decide
  · decide

/-- C2 (amended): on the OLTP-sequence fallback path every successful call
returns end = nextval times size squared and start = end - size + 1, and
(for positive size) the range still contains exactly size consecutive
integers. -/
theorem C2_postgresql_range (v s : Int) (h : 1 ≤ s) :
    (IdAllocator.allocate_from_postgresql v s).2 = v * s * s ∧
    (IdAllocator.allocate_from_postgresql v s).1 = v * s * s - s + 1 ∧
    (IdAllocator.allocate_from_postgresql v s).2
      - (IdAllocator.allocate_from_postgresql v s).1 + 1 = s ∧
    (IdAllocator.allocate_from_postgresql v s).1
      ≤ (IdAllocator.allocate_from_postgresql v s).2 := by
  unfold IdAllocator.allocate_from_postgresql
  refine ⟨rfl, rfl, by ring, by simp; omega⟩

/-- Witness instantiating C2_postgresql_range at the sequence start. -/
theorem C2_postgresql_range_witness :
    (IdAllocator.allocate_from_postgresql 1000000 1000).2 = 1000000 * 1000 * 1000 ∧
    (IdAllocator.allocate_from_postgresql 1000000 1000).1 = 1000000 * 1000 * 1000 - 1000 + 1 ∧
    (IdAllocator.allocate_from_postgresql 1000000 1000).2
      - (IdAllocator.allocate_from_postgresql 1000000 1000).1 + 1 = 1000 ∧
    (IdAllocator.allocate_from_postgresql 1000000 1000).1
      ≤ (IdAllocator.allocate_from_postgresql 1000000 1000).2 :=
  C2_postgresql_range 1000000 1000 (by decide)

/-- The URL record fields the service layer reads and writes (timestamps
are carried opaquely by the source and omitted here). -/
structure UrlRow where
  id : Nat
  short_code : String
  original_url : String
  clicks : Int
deriving DecidableEq, Repr

namespace IdAllocator

/-- The Lua compare-and-delete script of
IDAllocationService._release_distributed_lock, acting on the stored value
of the lock key: delete (returning 1) iff it equals the presented token,
else leave the key unchanged (returning 0). -/
def release_lock_script (stored : Option String) (token : String) :
    Option String × Int :=
  if stored = some token then (none, 1) else (stored, 0)

/-- IDAllocationService._release_distributed_lock: a guard on the local
active_locks map, then the Lua script; returns whether the key was
deleted. -/
def _release_distributed_lock (inActiveLocks : Bool) (stored : Option String)
    (token : String) : Option String × Bool :=
  if !inActiveLocks then (stored, false)
  else
    let r := release_lock_script stored token
    (r.1, r.2 == 1)

end IdAllocator

namespace AppService

/-- src/app/service.py _acquire_cache_lock: SET lock:url:code "1" NX — the
stored value is the constant "1", not a caller-unique token. Result:
(new stored value, acquired). -/
def _acquire_cache_lock (stored : Option String) : Option String × Bool :=
  match stored with
  | none => (some "1", true)
  | some v => (some v, false)

/-- src/app/service.py _release_cache_lock: an unconditional DEL of the
lock key — no owner comparison of any kind. -/
def _release_cache_lock (_stored : Option String) : Option String := none

end AppService

namespace UrlService

/-- URLShorteningService._acquire_distributed_lock: SET lock:url:code "1"
NX, same constant value as the AppService variant. -/
def _acquire_distributed_lock (stored : Option String) : Option String × Bool :=
  match stored with
  | none => (some "1", true)
  | some v => (some v, false)

/-- URLShorteningService._release_distributed_lock: an unconditional DEL
of the lock key. -/
def _release_distributed_lock (_stored : Option String) : Option String := none

end UrlService

/-- C4, as claimed, fails on the lookup single-flight lock: its release is
a plain DEL, so a caller (whose acquisition stored the constant "1")
deletes the key even when it currently holds a different value — the
release is not a compare-and-delete no-op on mismatch. -/
theorem C4_counterexample :
    AppService._release_cache_lock (some "other-owner") = none ∧
    UrlService._release_distributed_lock (some "other-owner") = none ∧
    ("other-owner" : String) ≠ "1" := by
  exact ⟨rfl, rfl, by decide⟩

/-- C4 (amended): the allocator lock id_allocation_lock is released by a
compare-and-delete script — the key is deleted exactly when the stored
value equals the releasing caller's token, and is left unchanged
otherwise; the lookup single-flight lock lock:url:code is instead
acquired with the constant value "1" and released by an unconditional
DEL in both service layers. -/
theorem C4_lock_release (stored : Option String) (token : String) :
    (stored = some token →
      IdAllocator._release_distributed_lock true stored token = (none, true)) ∧
    (stored ≠ some token →
      IdAllocator._release_distributed_lock true stored token = (stored, false)) ∧
    AppService._release_cache_lock stored = none ∧
    UrlService._release_distributed_lock stored = none ∧
    AppService._acquire_cache_lock none = (some "1", true) ∧
    UrlService._acquire_distributed_lock none = (some "1", true) := by
  refine ⟨?_, ?_, rfl, rfl, rfl, rfl⟩
  · intro h
    simp [IdAllocator._release_distributed_lock, IdAllocator.release_lock_script, h]
  · intro h
    simp [IdAllocator._release_distributed_lock, IdAllocator.release_lock_script, h]

/-- Witness instantiating C4_lock_release: a matching token deletes the
allocator lock, a mismatched one leaves it in place. -/
theorem C4_lock_release_witness :
    IdAllocator._release_distributed_lock true (some "tok-1") "tok-1" = (none, true) ∧
    IdAllocator._release_distributed_lock true (some "tok-1") "tok-2" = (some "tok-1", false) :=
  ⟨(C4_lock_release (some "tok-1") "tok-1").1 rfl,
   (C4_lock_release (some "tok-1") "tok-2").2.1 (by decide)⟩

/-- Environment a lookup runs against: the value the reader cache returns
on its k-th GET of url:code (k counts reads made by this operation, the
initial read being k = 0), whether the SET NX on lock:url:code would
succeed, and the OLTP row for the code. JSON encoding of the cached
payload is abstracted to the decoded record. -/
structure LookupEnv where
  cacheAt : Nat → Option UrlRow
  lockFree : Bool
  db : Option UrlRow

/-- Observable outcome of one lookup: the returned record, how many reader
GETs and OLTP reads ran, the sleeps performed (milliseconds), whether the
OLTP read ran while this caller held the lock, what was written to the
lookup cache, and whether the lock key was released. -/
structure LookupRun where
  result : Option UrlRow
  cacheReads : Nat
  dbReads : Nat
  sleptMs : List Nat
  heldLockDuringDb : Bool
  cacheWritten : Option UrlRow
  lockReleased : Bool
deriving DecidableEq, Repr

namespace AppService

/-- Default Settings.CACHE_LOCK_RETRY_COUNT (src/app/config.py). -/
def CACHE_LOCK_RETRY_COUNT : Nat := 3

/-- Default Settings.CACHE_LOCK_RETRY_DELAY_SECONDS (0.05 s), in ms. -/
def CACHE_LOCK_RETRY_DELAY_MS : Nat := 50

/-- The for-loop of get_url_by_code run when the lock was not acquired:
sleep, re-read the reader cache, return the value as soon as one appears.
Returns (value found, reads performed). -/
def retryProbe (env : LookupEnv) (idx : Nat) : Nat → Option UrlRow × Nat
  | 0 => (none, 0)
  | k + 1 =>
    match env.cacheAt idx with
    | some r => (some r, 1)
    | none =>
      let rest := retryProbe env (idx + 1) k
      (rest.1, rest.2 + 1)

/-- src/app/service.py get_url_by_code: reader GET; on a hit return it;
on a miss try the lock; if not acquired, retry the reader GET up to
CACHE_LOCK_RETRY_COUNT times sleeping CACHE_LOCK_RETRY_DELAY before each
read, returning a value as soon as one appears; otherwise fall through to
the OLTP read (without the lock when it was not acquired), cache a hit,
and release the lock only if this caller acquired it. -/
def get_url_by_code (env : LookupEnv) : LookupRun :=
  match env.cacheAt 0 with
  | some r =>
    { result := some r, cacheReads := 1, dbReads := 0, sleptMs := [],
      heldLockDuringDb := false, cacheWritten := none, lockReleased := false }
  | none =>
    if env.lockFree then
      { result := env.db, cacheReads := 1, dbReads := 1, sleptMs := [],
        heldLockDuringDb := true, cacheWritten := env.db, lockReleased := true }
    else
      let probe := retryProbe env 1 CACHE_LOCK_RETRY_COUNT
      match probe.1 with
      | some r =>
        { result := some r, cacheReads := 1 + probe.2, dbReads := 0,
          sleptMs := List.replicate probe.2 CACHE_LOCK_RETRY_DELAY_MS,
          heldLockDuringDb := false, cacheWritten := none, lockReleased := false }
      | none =>
        { result := env.db, cacheReads := 1 + probe.2, dbReads := 1,
          sleptMs := List.replicate probe.2 CACHE_LOCK_RETRY_DELAY_MS,
          heldLockDuringDb := false, cacheWritten := env.db, lockReleased := false }

end AppService

namespace UrlService

/-- URLShorteningService.lookup_url_by_code: reader GET; on a miss try the
lock, then — whether or not it was acquired, with no retry loop and no
sleep — do one double-check cache read, fall through to the OLTP read,
cache a hit, and release the lock only if it was acquired. -/
def lookup_url_by_code (env : LookupEnv) : LookupRun :=
  match env.cacheAt 0 with
  | some r =>
    { result := some r, cacheReads := 1, dbReads := 0, sleptMs := [],
      heldLockDuringDb := false, cacheWritten := none, lockReleased := false }
  | none =>
    let acquired := env.lockFree
    match env.cacheAt 1 with
    | some r =>
      { result := some r, cacheReads := 2, dbReads := 0, sleptMs := [],
        heldLockDuringDb := false, cacheWritten := none, lockReleased := acquired }
    | none =>
      { result := env.db, cacheReads := 2, dbReads := 1, sleptMs := [],
        heldLockDuringDb := acquired, cacheWritten := env.db, lockReleased := acquired }

end UrlService

/-- A concrete URL row used by counterexamples and witnesses. -/
def rowA : UrlRow :=
  { id := 7, short_code := "abc123", original_url := "https://example.com", clicks := 4 }

/-- C5, as claimed, fails on the lookup service wired into the routes:
in an environment where the cache misses, the lock cannot be acquired, and
a cached value appears from the second post-miss read on (well within
RETRY_COUNT = 3 attempts), lookup_url_by_code still returns the (empty)
OLTP result after a single immediate double-check read with no 50 ms
sleeps, instead of retrying and returning the value that appeared. -/
theorem C5_counterexample :
    (let env : LookupEnv :=
        { cacheAt := fun i => if i ≤ 1 then none else some rowA,
          lockFree := false, db := none }
     UrlService.lookup_url_by_code env =
        { result := none, cacheReads := 2, dbReads := 1, sleptMs := [],
          heldLockDuringDb := false, cacheWritten := none, lockReleased := false } ∧
     env.cacheAt 2 = some rowA) := by
  exact ⟨rfl, rfl⟩

/-- C5 (amended): src/app/service.py get_url_by_code behaves as claimed —
on a cache miss with the lock unavailable it retries the reader read up to
CACHE_LOCK_RETRY_COUNT = 3 times with a 50 ms sleep before each retry,
returns the cached value as soon as one appears, and otherwise falls
through to a direct OLTP read without holding or releasing the lock; the
route-wired URLShorteningService.lookup_url_by_code instead performs a
single immediate double-check read and falls through with no retries and
no delay. -/
theorem C5_lookup_retry :
    (∀ env : LookupEnv, env.cacheAt 0 = none → env.lockFree = false →
      env.cacheAt 1 = none → env.cacheAt 2 = none → env.cacheAt 3 = none →
      AppService.get_url_by_code env =
        { result := env.db, cacheReads := 4, dbReads := 1, sleptMs := [50, 50, 50],
          heldLockDuringDb := false, cacheWritten := env.db, lockReleased := false }) ∧
    (∀ env : LookupEnv, ∀ r : UrlRow, env.cacheAt 0 = none → env.lockFree = false →
      env.cacheAt 1 = some r →
      AppService.get_url_by_code env =
        { result := some r, cacheReads := 2, dbReads := 0, sleptMs := [50],
          heldLockDuringDb := false, cacheWritten := none, lockReleased := false }) ∧
    (∀ env : LookupEnv, ∀ r : UrlRow, env.cacheAt 0 = none → env.lockFree = false →
      env.cacheAt 1 = none → env.cacheAt 2 = some r →
      AppService.get_url_by_code env =
        { result := some r, cacheReads := 3, dbReads := 0, sleptMs := [50, 50],
          heldLockDuringDb := false, cacheWritten := none, lockReleased := false }) ∧
    (∀ env : LookupEnv, ∀ r : UrlRow, env.cacheAt 0 = none → env.lockFree = false →
      env.cacheAt 1 = none → env.cacheAt 2 = none → env.cacheAt 3 = some r →
      AppService.get_url_by_code env =
        { result := some r, cacheReads := 4, dbReads := 0, sleptMs := [50, 50, 50],
          heldLockDuringDb := false, cacheWritten := none, lockReleased := false }) ∧
    (∀ env : LookupEnv, env.cacheAt 0 = none → env.lockFree = false →
      env.cacheAt 1 = none →
      UrlService.lookup_url_by_code env =
        { result := env.db, cacheReads := 2, dbReads := 1, sleptMs := [],
          heldLockDuringDb := false, cacheWritten := env.db, lockReleased := false }) := by
  refine ⟨?_, ?_, ?_, ?_, ?_⟩
  · intro env h0 hl h1 h2 h3
    simp [AppService.get_url_by_code, AppService.retryProbe,
      AppService.CACHE_LOCK_RETRY_COUNT, AppService.CACHE_LOCK_RETRY_DELAY_MS,
      h0, hl, h1, h2, h3, List.replicate]
  · intro env r h0 hl h1
    simp [AppService.get_url_by_code, AppService.retryProbe,
      AppService.CACHE_LOCK_RETRY_COUNT, AppService.CACHE_LOCK_RETRY_DELAY_MS,
      h0, hl, h1, List.replicate]
  · intro env r h0 hl h1 h2
    simp [AppService.get_url_by_code, AppService.retryProbe,
      AppService.CACHE_LOCK_RETRY_COUNT, AppService.CACHE_LOCK_RETRY_DELAY_MS,
      h0, hl, h1, h2, List.replicate]
  · intro env r h0 hl h1 h2 h3
    simp [AppService.get_url_by_code, AppService.retryProbe,
      AppService.CACHE_LOCK_RETRY_COUNT, AppService.CACHE_LOCK_RETRY_DELAY_MS,
      h0, hl, h1, h2, h3, List.replicate]
  · intro env h0 hl h1
    simp [UrlService.lookup_url_by_code, h0, hl, h1]

/-- Witness instantiating C5_lookup_retry: a value appearing on the second
retry is returned after two 50 ms sleeps. -/
theorem C5_lookup_retry_witness :
    AppService.get_url_by_code
      { cacheAt := fun i => if i = 2 then some rowA else none,
        lockFree := false, db := none } =
      { result := some rowA, cacheReads := 3, dbReads := 0, sleptMs := [50, 50],
        heldLockDuringDb := false, cacheWritten := none, lockReleased := false } :=
  C5_lookup_retry.2.2.1
    { cacheAt := fun i => if i = 2 then some rowA else none,
      lockFree := false, db := none } rowA rfl rfl rfl rfl

/-- OLTP operations a service call performs, for stating read-only-ness. -/
inductive DbOp where
  | read
  | write
deriving DecidableEq, Repr

namespace AppService

/-- src/app/service.py _get_buffered_click_count: GET of the click buffer
key, 0 when the key is absent. -/
def _get_buffered_click_count (value : Option Int) : Int :=
  match value with
  | none => 0
  | some n => n

/-- src/app/service.py get_url_stats: read the OLTP row; when present,
read the buffered delta and add it to the returned record's clicks only
when it is positive. Also records the OLTP operations performed. -/
def get_url_stats (db : Option UrlRow) (bufferValue : Option Int) :
    Option UrlRow × List DbOp :=
  match db with
  | none => (none, [DbOp.read])
  | some url =>
    let buffered_clicks := _get_buffered_click_count bufferValue
    if buffered_clicks > 0 then
      (some { url with clicks := url.clicks + buffered_clicks }, [DbOp.read])
    else
      (some url, [DbOp.read])

end AppService

namespace UrlService

/-- URLShorteningService._get_buffered_click_count: GET of the click
buffer key on the writer handle, 0 when absent. -/
def _get_buffered_click_count (value : Option Int) : Int :=
  match value with
  | none => 0
  | some n => n

/-- URLShorteningService.get_url_statistics: lookup (cache-first), and when
found add the buffered delta to the returned record's clicks only when it
is positive. The OLTP row is never written. -/
def get_url_statistics (env : LookupEnv) (bufferValue : Option Int) :
    Option UrlRow :=
  match (lookup_url_by_code env).result with
  | none => none
  | some url =>
    let buffered_clicks := _get_buffered_click_count bufferValue
    if buffered_clicks > 0 then
      some { url with clicks := url.clicks + buffered_clicks }
    else
      some url

end UrlService

lemma retryProbe_source (env : LookupEnv) :
    ∀ k idx r, (AppService.retryProbe env idx k).1 = some r →
      ∃ i, env.cacheAt i = some r := by
  intro k
  induction k with
  | zero => intro idx r h; simp [AppService.retryProbe] at h
  | succ n ih =>
    intro idx r h
    cases hc : env.cacheAt idx with
    | some v =>
      simp [AppService.retryProbe, hc] at h
      exact ⟨idx, by rw [hc, h]⟩
    | none =>
      simp [AppService.retryProbe, hc] at h
      exact ih (idx + 1) r h

lemma get_url_by_code_source (env : LookupEnv) (u : UrlRow)
    (h : (AppService.get_url_by_code env).result = some u) :
    (∃ i, env.cacheAt i = some u) ∨ env.db = some u := by
  unfold AppService.get_url_by_code at h
  cases h0 : env.cacheAt 0 with
  | some v =>
    rw [h0] at h
    exact Or.inl ⟨0, by simpa using h.symm ▸ h0⟩
  | none =>
    rw [h0] at h
    by_cases hl : env.lockFree
    · simp [hl] at h
      exact Or.inr h
    · simp [hl] at h
      cases hp : (AppService.retryProbe env 1 AppService.CACHE_LOCK_RETRY_COUNT).1 with
      | some v =>
        rw [hp] at h
        simp at h
        exact Or.inl (retryProbe_source env _ 1 u (h ▸ hp))
      | none =>
        rw [hp] at h
        simp at h
        exact Or.inr h

/-- C7: statistics is derived and read-only. In src/app/service.py,
get_url_stats returns the persisted record with the positive part of the
buffered delta added to clicks, the other fields unchanged, and performs
no OLTP write; in src/app/url_service.py, get_url_statistics returns the
lookup result with the positive part of the buffered delta added; and
whenever the cached payloads lag the persisted record (the data-model
invariant), the statistics clicks are at least the lookup clicks. -/
theorem C7_statistics_derived :
    (∀ db bufferValue,
      ((AppService.get_url_stats db bufferValue).1).map (fun w => w.clicks) =
        db.map (fun u => u.clicks +
          max 0 (AppService._get_buffered_click_count bufferValue)) ∧
      ((AppService.get_url_stats db bufferValue).1).map
          (fun w => (w.id, w.short_code, w.original_url)) =
        db.map (fun u => (u.id, u.short_code, u.original_url)) ∧
      DbOp.write ∉ (AppService.get_url_stats db bufferValue).2) ∧
    (∀ env bufferValue,
      (UrlService.get_url_statistics env bufferValue).map (fun w => w.clicks) =
        ((UrlService.lookup_url_by_code env).result).map (fun u => u.clicks +
          max 0 (UrlService._get_buffered_click_count bufferValue))) ∧
    (∀ env bufferValue (u : UrlRow),
      (∀ i r, env.cacheAt i = some r → ∃ d, env.db = some d ∧ r.clicks ≤ d.clicks) →
      (AppService.get_url_by_code env).result = some u →
      ∀ v, (AppService.get_url_stats env.db bufferValue).1 = some v →
        u.clicks ≤ v.clicks) := by
  refine ⟨?_, ?_, ?_⟩
  · intro db bufferValue
    refine ⟨?_, ?_, ?_⟩ <;>
      cases db with
      | none => simp [AppService.get_url_stats]
      | some url =>
        by_cases hb : AppService._get_buffered_click_count bufferValue > 0 <;>
          simp [AppService.get_url_stats, hb] <;> omega
  · intro env bufferValue
    unfold UrlService.get_url_statistics
    cases hres : (UrlService.lookup_url_by_code env).result with
    | none => simp
    | some url =>
      by_cases hb : UrlService._get_buffered_click_count bufferValue > 0 <;>
        simp [hb] <;> omega
  · intro env bufferValue u hlag hu v hv
    have hdb : ∀ d : UrlRow, env.db = some d → u.clicks ≤ d.clicks := by
      intro d hd
      rcases get_url_by_code_source env u hu with ⟨i, hi⟩ | heq
      · rcases hlag i u hi with ⟨d2, hd2, hle⟩
        rw [hd] at hd2
        injection hd2 with hd2
        exact hd2 ▸ hle
      · rw [hd] at heq
        injection heq with heq
        exact heq ▸ le_refl _
    cases hdbv : env.db with
    | none => rw [hdbv] at hv; simp [AppService.get_url_stats] at hv
    | some d =>
      have hle := hdb d hdbv
      rw [hdbv] at hv
      by_cases hb : AppService._get_buffered_click_count bufferValue > 0
      · simp [AppService.get_url_stats, hb] at hv
        have hvc : v.clicks =
            d.clicks + AppService._get_buffered_click_count bufferValue := by
          rw [← hv]
        omega
      · simp [AppService.get_url_stats, hb] at hv
        have hvc : v.clicks = d.clicks := by rw [← hv]
        omega

/-- A stale cached copy of rowA, lagging the persisted clicks. -/
def rowALag : UrlRow := { rowA with clicks := 3 }

/-- The record returned by statistics for rowA with a buffered delta 2. -/
def rowAStat : UrlRow := { rowA with clicks := 6 }

/-- Witness instantiating C7_statistics_derived: a cached record lagging
the persisted one, statistics clicks at least the lookup clicks. -/
theorem C7_statistics_derived_witness : rowALag.clicks ≤ rowAStat.clicks :=
  C7_statistics_derived.2.2
    { cacheAt := fun _ => some rowALag, lockFree := false, db := some rowA }
    (some 2)
    rowALag
    (by
      intro i r h
      refine ⟨rowA, rfl, ?_⟩
      injection h with h
      rw [← h]
      decide)
    rfl
    rowAStat
    rfl

/-- Outcome of one publish_click_event call as seen by the caller. -/
inductive KafkaPublishOutcome where
  | ok
  | returnedFalse
  | raised
deriving DecidableEq, Repr

/-- One XADD entry on the fallback click stream. The url_service variant
also attaches a timestamp field; the service variant does not. -/
structure StreamEntryM where
  short_code : String
  delta : String
  timestamp : Option String
deriving DecidableEq, Repr

/-- What the publish phase of a click-tracking call did: the entries it
appended to the fallback stream, and whether it let an error escape to
the caller (failing the redirect). -/
structure TrackOutcome where
  streamEntries : List StreamEntryM
  raisedError : Bool
deriving DecidableEq, Repr

namespace UrlService

/-- URLShorteningService._handle_kafka_failure: XADD the short code with
delta "1" and a timestamp onto the fallback stream; an XADD failure is
caught and logged, never raised. -/
def _handle_kafka_failure (short_code : String) (ts : String)
    (xaddRaises : Bool) : TrackOutcome :=
  if xaddRaises then { streamEntries := [], raisedError := false }
  else
    { streamEntries := [{ short_code := short_code, delta := "1", timestamp := some ts }],
      raisedError := false }

/-- URLShorteningService._publish_click_event: on a publish that raises or
returns false, fall back to the stream append; every failure is caught. -/
def _publish_click_event (short_code : String) (ts : String)
    (publish : KafkaPublishOutcome) (xaddRaises : Bool) : TrackOutcome :=
  match publish with
  | KafkaPublishOutcome.ok => { streamEntries := [], raisedError := false }
  | KafkaPublishOutcome.returnedFalse => _handle_kafka_failure short_code ts xaddRaises
  | KafkaPublishOutcome.raised => _handle_kafka_failure short_code ts xaddRaises

end UrlService

namespace AppService

/-- The publish phase of src/app/service.py increment_clicks: only a
publish that returns false falls back to the stream XADD (without a
timestamp field); a publish that raises, or an XADD that raises,
propagates out of increment_clicks uncaught. -/
def increment_clicks_publish (short_code : String)
    (publish : KafkaPublishOutcome) (xaddRaises : Bool) : TrackOutcome :=
  match publish with
  | KafkaPublishOutcome.ok => { streamEntries := [], raisedError := false }
  | KafkaPublishOutcome.returnedFalse =>
    if xaddRaises then { streamEntries := [], raisedError := true }
    else
      { streamEntries := [{ short_code := short_code, delta := "1", timestamp := none }],
        raisedError := false }
  | KafkaPublishOutcome.raised => { streamEntries := [], raisedError := true }

end AppService

/-- C8, as claimed, fails on src/app/service.py increment_clicks: when the
queue publish raises (rather than returning false), no fallback stream
entry is appended and the error escapes the call, failing the redirect. -/
theorem C8_counterexample :
    AppService.increment_clicks_publish "abc123" KafkaPublishOutcome.raised false =
      { streamEntries := [], raisedError := true } := rfl

/-- C8 (amended): in the route-wired URLShorteningService, a publish that
returns false or raises appends the short_code/delta-"1" event to the
fallback stream, and no combination of publish and stream-append failures
raises out of the publish phase, so the redirect succeeds; in
src/app/service.py increment_clicks, only a publish that returns false
falls back to the stream, while a publish or stream append that raises
propagates the error. -/
theorem C8_click_fallback :
    (∀ short_code ts publish,
      publish ≠ KafkaPublishOutcome.ok →
      UrlService._publish_click_event short_code ts publish false =
        { streamEntries := [⟨short_code, "1", some ts⟩], raisedError := false }) ∧
    (∀ short_code ts publish xaddRaises,
      (UrlService._publish_click_event short_code ts publish xaddRaises).raisedError
        = false) ∧
    (∀ short_code : String,
      AppService.increment_clicks_publish short_code
          KafkaPublishOutcome.returnedFalse false =
        { streamEntries := [⟨short_code, "1", none⟩], raisedError := false }) ∧
    (∀ short_code : String,
      AppService.increment_clicks_publish short_code
          KafkaPublishOutcome.raised false =
        { streamEntries := [], raisedError := true }) := by
  refine ⟨?_, ?_, fun _ => rfl, fun _ => rfl⟩
  · intro sc ts publish hp
    cases publish with
    | ok => exact absurd rfl hp
    | returnedFalse => rfl
    | raised => rfl
  · intro sc ts publish xaddRaises
    cases publish <;> cases xaddRaises <;> rfl

/-- Witness instantiating C8_click_fallback: a raising publish in the
url_service stack still lands the event on the fallback stream. -/
theorem C8_click_fallback_witness :
    UrlService._publish_click_event "abc123" "t0" KafkaPublishOutcome.raised false =
      { streamEntries := [⟨"abc123", "1", some "t0"⟩], raisedError := false } :=
  C8_click_fallback.1 "abc123" "t0" KafkaPublishOutcome.raised (by decide)

/-- Python str.isalnum, per character. Python classifies by Unicode
category (letters, digits, numerics), not by the ASCII code alphabet; the
table is reproduced here for the code points below 0x100 (the string
domain of this embedding): ASCII alphanumerics plus the Latin-1 letters
(feminine/masculine ordinals, micro sign, accented letters) and the
Latin-1 numerics (superscripts and vulgar fractions). -/
def pyIsAlnumChar (c : Char) : Bool :=
  c.isAlphanum ||
  (let n := c.toNat
   n == 0xAA || n == 0xB5 || n == 0xBA ||
   n == 0xB2 || n == 0xB3 || n == 0xB9 ||
   (0xBC ≤ n && n ≤ 0xBE) ||
   (0xC0 ≤ n && n ≤ 0xD6) ||
   (0xD8 ≤ n && n ≤ 0xF6) ||
   (0xF8 ≤ n && n ≤ 0xFF))

namespace Schemas

/-- Python str.isalnum on a whole string: non-empty and every character
alphanumeric. -/
def pyStrIsAlnum (s : String) : Bool := !s.isEmpty && s.data.all pyIsAlnumChar

/-- URLCreate.validate_custom_code (src/app/schemas.py): length 3 to 20,
then Python isalnum; errors model the raised ValueError (HTTP 422). -/
def validate_custom_code (v : Option String) : Except String (Option String) :=
  match v with
  | none => Except.ok none
  | some s =>
    if s.length < 3 ∨ 20 < s.length then
      Except.error "Custom code must be between 3 and 20 characters"
    else if pyStrIsAlnum s = false then
      Except.error "Custom code must be alphanumeric"
    else Except.ok (some s)

end Schemas

/-- Service-level failures of the create path. -/
inductive CreateError where
  | invalidArgument (msg : String)
  | conflict
deriving DecidableEq, Repr

namespace AppService

/-- The custom-code branch of src/app/service.py create_short_url, with
the pydantic validation that runs before the service sees the payload: a
validation failure raises (422), an existing row with the code raises the
already-taken ValueError (409), otherwise the record is created with
exactly the requested code. -/
def create_short_url_custom (existing : String → Bool) (custom : String) :
    Except CreateError String :=
  match Schemas.validate_custom_code (some custom) with
  | Except.error m => Except.error (CreateError.invalidArgument m)
  | Except.ok _ =>
    if existing custom then Except.error CreateError.conflict
    else Except.ok custom

end AppService

/-- C9, as claimed, fails on the character check: validation uses Python
str.isalnum, which accepts any Unicode alphanumeric, so a custom code of
accented letters — each outside the 62-character code alphabet — passes
validation and is created verbatim instead of failing with
InvalidArgument. -/
theorem C9_counterexample :
    AppService.create_short_url_custom (fun _ => false) "ééé" = Except.ok "ééé" ∧
    'é' ∉ UrlService.BASE62_ALPHABET.data := by
  exact ⟨rfl, by decide⟩

/-- C9 (amended): a custom code of length 2 or 21 fails with the length
ValueError; a custom code containing any character Python classifies as
non-alphanumeric (in particular every ASCII character outside 0-9 a-z
A-Z, such as - or !) fails with the alphanumeric ValueError, but
non-ASCII Unicode alphanumerics such as é are accepted; a valid custom
code that already exists fails with Conflict, and otherwise the record is
created with exactly that code. -/
theorem C9_custom_code_validation :
    (∀ s : String, s.length = 2 →
      Schemas.validate_custom_code (some s) =
        Except.error "Custom code must be between 3 and 20 characters") ∧
    (∀ s : String, s.length = 21 →
      Schemas.validate_custom_code (some s) =
        Except.error "Custom code must be between 3 and 20 characters") ∧
    (∀ (s : String) (c : Char), 3 ≤ s.length → s.length ≤ 20 → c ∈ s.data →
      pyIsAlnumChar c = false →
      Schemas.validate_custom_code (some s) =
        Except.error "Custom code must be alphanumeric") ∧
    pyIsAlnumChar '-' = false ∧
    pyIsAlnumChar '!' = false ∧
    pyIsAlnumChar 'é' = true ∧
    (∀ (existing : String → Bool) (s : String) (r : Option String),
      Schemas.validate_custom_code (some s) = Except.ok r → existing s = true →
      AppService.create_short_url_custom existing s =
        Except.error CreateError.conflict) ∧
    (∀ (existing : String → Bool) (s : String) (r : Option String),
      Schemas.validate_custom_code (some s) = Except.ok r → existing s = false →
      AppService.create_short_url_custom existing s = Except.ok s) := by
  refine ⟨?_, ?_, ?_, by decide, by decide, by decide, ?_, ?_⟩
  · intro s h
    simp [Schemas.validate_custom_code, h]
  · intro s h
    simp [Schemas.validate_custom_code, h]
  · intro s c h3 h20 hc hpc
    have hlen : ¬(s.length < 3 ∨ 20 < s.length) := by omega
    have halnum : Schemas.pyStrIsAlnum s = false := by
      unfold Schemas.pyStrIsAlnum
      cases hall : s.data.all pyIsAlnumChar with
      | false => simp [hall]
      | true =>
        have := List.all_eq_true.mp hall c hc
        rw [hpc] at this
        exact absurd this (by decide)
    simp [Schemas.validate_custom_code, hlen, halnum]
  · intro existing s r hv hex
    unfold AppService.create_short_url_custom
    rw [hv]
    simp [hex]
  · intro existing s r hv hex
    unfold AppService.create_short_url_custom
    rw [hv]
    simp [hex]

/-- Witness instantiating C9_custom_code_validation: a two-character code
fails the length check, a dash fails the alphanumeric check, an existing
code conflicts. -/
theorem C9_custom_code_validation_witness :
    Schemas.validate_custom_code (some "ab") =
      Except.error "Custom code must be between 3 and 20 characters" ∧
    Schemas.validate_custom_code (some "my-code") =
      Except.error "Custom code must be alphanumeric" ∧
    AppService.create_short_url_custom (fun _ => true) "taken1" =
      Except.error CreateError.conflict :=
  ⟨C9_custom_code_validation.1 "ab" rfl,
   C9_custom_code_validation.2.2.1 "my-code" '-' (by decide) (by decide)
     (by decide) (by decide),
   C9_custom_code_validation.2.2.2.2.2.2.1 (fun _ => true) "taken1" (some "taken1")
     rfl rfl⟩

/-- Shared state the ingestion flush touches: OLTP clicks per short code,
the click_buffer counters, and the lookup-cache entries. -/
structure FlushState where
  dbClicks : String → Int
  clickBuffer : String → Option Int
  urlCache : String → Option String

/-- A per-key pointwise update applied across an aggregation list, as the
flush loops do: for each (code, delta) pair, update the map at that code. -/
def keyFold {α : Type} (g : α → Int → α) (agg : List (String × Int))
    (m : String → α) : String → α :=
  agg.foldl (fun acc p => fun c => if c = p.1 then g (acc c) p.2 else acc c) m

lemma keyFold_not_mem {α : Type} (g : α → Int → α) (agg : List (String × Int))
    (m : String → α) (c : String) (h : c ∉ agg.map Prod.fst) :
    keyFold g agg m c = m c := by
  induction agg generalizing m with
  | nil => rfl
  | cons p rest ih =>
    have hne : c ≠ p.1 := by
      intro he; exact h (by simp [he])
    have hrest : c ∉ rest.map Prod.fst := by
      intro hr; exact h (by simp [hr])
    rw [keyFold, List.foldl_cons, ← keyFold, ih _ hrest]
    simp [hne]

lemma keyFold_mem_nodup {α : Type} (g : α → Int → α) (agg : List (String × Int))
    (m : String → α) (c : String) (δ : Int) (hmem : (c, δ) ∈ agg)
    (hnd : (agg.map Prod.fst).Nodup) : keyFold g agg m c = g (m c) δ := by
  induction agg generalizing m with
  | nil => simp at hmem
  | cons p rest ih =>
    rw [List.map_cons] at hnd
    obtain ⟨hp1, hndrest⟩ := List.nodup_cons.mp hnd
    rcases List.mem_cons.mp hmem with rfl | hmem
    · have hnot : c ∉ rest.map Prod.fst := by simpa using hp1
      rw [keyFold, List.foldl_cons, ← keyFold, keyFold_not_mem _ _ _ _ hnot]
      simp
    · have hkey : c ∈ rest.map Prod.fst :=
        List.mem_map.mpr ⟨(c, δ), hmem, rfl⟩
      have hne : c ≠ p.1 := by
        intro he; exact hp1 (he ▸ hkey)
      rw [keyFold, List.foldl_cons, ← keyFold, ih _ hmem hndrest]
      simp [hne]

namespace IngestionWorker

/-- src/services/ingestion/worker.py _process_batch: on a non-empty
aggregation, add each delta to the OLTP row and commit, then pipeline a
DECRBY of click_buffer:code by the delta (a missing counter counts as 0)
and a DEL of url:code, and insert one analytics row per flushed code.
Result: (state after the flush, analytics rows as (code, delta) pairs). -/
def _process_batch (agg : List (String × Int)) (st : FlushState) :
    FlushState × List (String × Int) :=
  if agg.isEmpty then (st, [])
  else
    let afterDb : FlushState :=
      { st with dbClicks := keyFold (fun x d => x + d) agg st.dbClicks }
    let afterPipe : FlushState :=
      { afterDb with
        clickBuffer :=
          keyFold (fun x d => some (x.getD 0 - d)) agg afterDb.clickBuffer,
        urlCache := keyFold (fun _ _ => none) agg afterDb.urlCache }
    (afterPipe, agg)

end IngestionWorker

namespace IngestionSvc

/-- State touched by IngestionService.process_click_buffer, which reads
the click_buffer keys as Redis hashes (field to count). -/
structure SvcState where
  dbClicks : String → Int
  bufferHash : String → List (String × Int)
  urlCache : String → Option String

/-- One iteration of IngestionService.process_click_buffer for the buffer
key of one code: HGETALL the buffer; when empty just delete the key; else
sum the counts, add the total to the OLTP row, commit, and delete the
buffer key outright. The url:code cache entry is never touched. -/
def process_click_buffer_key (st : SvcState) (code : String) : SvcState :=
  let clicks_data := st.bufferHash code
  if clicks_data.isEmpty then
    { st with bufferHash := fun c => if c = code then [] else st.bufferHash c }
  else
    let total_clicks := (clicks_data.map Prod.snd).foldl (· + ·) 0
    { st with
      dbClicks := fun c =>
        if c = code then st.dbClicks c + total_clicks else st.dbClicks c,
      bufferHash := fun c => if c = code then [] else st.bufferHash c }

end IngestionSvc

/-- Initial state for the C6 counterexample: code abc123 has 5 buffered
clicks and a cached lookup payload. -/
def svcSt0 : IngestionSvc.SvcState :=
  { dbClicks := fun _ => 0,
    bufferHash := fun c => if c = "abc123" then [("clicks", 5)] else [],
    urlCache := fun c => if c = "abc123" then some "payload" else none }

/-- C6, as claimed, fails on IngestionService.process_click_buffer: this
flush commits an OLTP update of delta 5 for abc123, yet afterwards the
click buffer key has been deleted outright (not decremented by 5) and the
lookup-cache entry url:abc123 is still present. -/
theorem C6_counterexample :
    (IngestionSvc.process_click_buffer_key svcSt0 "abc123").dbClicks "abc123" = 5 ∧
    (IngestionSvc.process_click_buffer_key svcSt0 "abc123").bufferHash "abc123" = [] ∧
    (IngestionSvc.process_click_buffer_key svcSt0 "abc123").urlCache "abc123"
      = some "payload" := by
  exact ⟨rfl, rfl, rfl⟩

/-- C6 (amended): for the ingestion worker's flush (_process_batch), every
flushed (code, delta) pair has, after the OLTP commit, its click buffer
counter decremented by exactly delta (left present, not deleted), its
url:code cache entry absent, its OLTP clicks increased by delta, and one
analytics row emitted; the IngestionService.process_click_buffer flush
instead deletes the buffer key outright and leaves the cache entry in
place (see the counterexample). -/
theorem C6_flush_effects (agg : List (String × Int)) (st : FlushState)
    (c : String) (δ : Int) (hmem : (c, δ) ∈ agg)
    (hnd : (agg.map Prod.fst).Nodup) :
    (IngestionWorker._process_batch agg st).1.clickBuffer c
      = some ((st.clickBuffer c).getD 0 - δ) ∧
    (IngestionWorker._process_batch agg st).1.urlCache c = none ∧
    (IngestionWorker._process_batch agg st).1.dbClicks c = st.dbClicks c + δ ∧
    (c, δ) ∈ (IngestionWorker._process_batch agg st).2 := by
  have hne : ¬agg.isEmpty := by
    cases agg with
    | nil => simp at hmem
    | cons p rest => simp
  unfold IngestionWorker._process_batch
  rw [if_neg hne]
  refine ⟨?_, ?_, ?_, ?_⟩
  · simpa using keyFold_mem_nodup (fun x d => some (x.getD 0 - d)) agg
      st.clickBuffer c δ hmem hnd
  · simpa using keyFold_mem_nodup (fun _ _ => none) agg st.urlCache c δ hmem hnd
  · simpa using keyFold_mem_nodup (fun x d => x + d) agg st.dbClicks c δ hmem hnd
  · simpa using hmem

/-- Witness instantiating C6_flush_effects on a concrete one-code flush. -/
theorem C6_flush_effects_witness :
    (IngestionWorker._process_batch [("abc123", 5)]
        { dbClicks := fun _ => 10,
          clickBuffer := fun _ => some 7,
          urlCache := fun _ => some "payload" }).1.clickBuffer "abc123"
      = some ((some (7 : Int)).getD 0 - 5) ∧
    (IngestionWorker._process_batch [("abc123", 5)]
        { dbClicks := fun _ => 10,
          clickBuffer := fun _ => some 7,
          urlCache := fun _ => some "payload" }).1.urlCache "abc123" = none ∧
    (IngestionWorker._process_batch [("abc123", 5)]
        { dbClicks := fun _ => 10,
          clickBuffer := fun _ => some 7,
          urlCache := fun _ => some "payload" }).1.dbClicks "abc123" = 10 + 5 ∧
    ("abc123", (5 : Int)) ∈ (IngestionWorker._process_batch [("abc123", 5)]
        { dbClicks := fun _ => 10,
          clickBuffer := fun _ => some 7,
          urlCache := fun _ => some "payload" }).2 :=
  C6_flush_effects [("abc123", 5)]
    { dbClicks := fun _ => 10,
      clickBuffer := fun _ => some 7,
      urlCache := fun _ => some "payload" }
    "abc123" 5 (by decide) (by decide)

/-- A validated ClickEvent (src/app/schemas.py): the short code and a
positive delta defaulting to 1. -/
structure ClickEventM where
  short_code : String
  delta : Int
deriving DecidableEq, Repr

/-- Lookup of a field in a stream entry payload. -/
def lookupField (k : String) (payload : List (String × String)) : Option String :=
  (payload.find? (fun p => p.1 = k)).map Prod.snd

/-- Decimal digit accumulation; fails on any non-digit character. -/
def digitsToNat : List Char → Nat → Option Nat
  | [], acc => some acc
  | c :: rest, acc =>
    if c.isDigit then digitsToNat rest (acc * 10 + (c.toNat - 48)) else none

/-- The integer coercion pydantic applies to a string delta field: an
optional leading minus sign followed by at least one decimal digit. -/
def pyStrToInt (s : String) : Option Int :=
  match s.data with
  | [] => none
  | '-' :: rest =>
    if rest.isEmpty then none
    else (digitsToNat rest 0).map (fun n => -(n : Int))
  | l => (digitsToNat l 0).map (fun n => (n : Int))

/-- ClickEvent.model_validate on a fallback-stream payload: short_code is
a required string; delta defaults to 1, must parse as an integer, and must
be at least 1; any violation fails validation. -/
def model_validate_click_event (payload : List (String × String)) :
    Option ClickEventM :=
  match lookupField "short_code" payload with
  | none => none
  | some sc =>
    match lookupField "delta" payload with
    | none => some { short_code := sc, delta := 1 }
    | some d =>
      match pyStrToInt d with
      | none => none
      | some dv => if 1 ≤ dv then some { short_code := sc, delta := dv } else none

namespace IngestionWorker

/-- src/services/ingestion/worker.py _process_redis_fallback_stream inner
loop over the messages one XREADGROUP delivered: validate each payload
(logging failures), then XACK the entry unconditionally; valid events are
collected for aggregation. Result: (acked entry ids, aggregated batch). -/
def process_fallback_messages :
    List (Nat × List (String × String)) → List Nat × List ClickEventM
  | [] => ([], [])
  | (message_id, payload) :: rest =>
    let r := process_fallback_messages rest
    (message_id :: r.1,
     match model_validate_click_event payload with
     | some e => e :: r.2
     | none => r.2)

end IngestionWorker

/-- C10: every fallback-stream entry read via the consumer group is
acknowledged, including entries whose payload fails ClickEvent validation;
the aggregated batch is exactly the validated payloads, each taken once,
so invalid entries are discarded permanently and no entry is left pending
for redelivery. -/
theorem C10_fallback_ack :
    ∀ msgs : List (Nat × List (String × String)),
      (IngestionWorker.process_fallback_messages msgs).1 = msgs.map Prod.fst ∧
      (IngestionWorker.process_fallback_messages msgs).2 =
        msgs.filterMap (fun m => model_validate_click_event m.2) := by
  intro msgs
  induction msgs with
  | nil => exact ⟨rfl, rfl⟩
  | cons m rest ih =>
    obtain ⟨ih1, ih2⟩ := ih
    refine ⟨?_, ?_⟩
    · rw [IngestionWorker.process_fallback_messages]
      simpa using ih1
    · rw [IngestionWorker.process_fallback_messages, List.filterMap_cons]
      cases hv : model_validate_click_event m.2 <;> simp [hv, ih2]

/-- Witness instantiating C10_fallback_ack: an invalid payload (missing
short_code) is acked alongside a valid one, and only the valid event is
aggregated. -/
theorem C10_fallback_ack_witness :
    (IngestionWorker.process_fallback_messages
        [(1, [("short_code", "abc123"), ("delta", "1")]),
         (2, [("delta", "oops")])]).1 = [1, 2] ∧
    (IngestionWorker.process_fallback_messages
        [(1, [("short_code", "abc123"), ("delta", "1")]),
         (2, [("delta", "oops")])]).2 =
      [{ short_code := "abc123", delta := 1 }] := by
  have h := C10_fallback_ack
    [(1, [("short_code", "abc123"), ("delta", "1")]), (2, [("delta", "oops")])]
  exact ⟨h.1.trans (by decide), h.2.trans (by decide)⟩
